import Mathlib

/-
Verification of the contractor-applicant pipeline (json_compression.py,
json_decompression.py, shortlist_automation.py, llm_evaluation.py,
models.py, config.py) against its specification.

Modelling conventions:
- Python strings are lists of characters (Str).  Case mapping is modelled
  for ASCII, which covers every constant and fixture in this development.
- Python floats are modelled as exact rationals; every concrete number
  used below is exactly representable, so no rounding behaviour is lost.
- The Airtable record store is modelled as a single-applicant state
  (Store); remote transport failures are out of scope of the claims
  settled here (the store operations are modelled as always reachable).
- pydantic validation is modelled over a JSON value type for the value
  space exercised by the theorems: required/optional fields, str, float
  and int fields.  Coercion of numeric strings and booleans, which the
  repository never relies on, is not modelled.
-/

set_option maxRecDepth 8000

/-- Python strings, modelled as lists of characters. -/
abbrev Str := List Char

/-- Build a Str from a Lean string literal. -/
def lit (s : String) : Str := s.data

/-- Python str.lower (ASCII range, which covers all data in this development). -/
def lower (s : Str) : Str := s.map Char.toLower

/-- Python str.upper (ASCII range). -/
def upper (s : Str) : Str := s.map Char.toUpper

/-- Python whitespace as stripped by str.strip(). -/
def isPySpace (c : Char) : Bool :=
  c == ' ' || c == '\t' || c == '\n' || c == '\r' || c == '\x0b' || c == '\x0c'

/-- Python str.strip(). -/
def strip (s : Str) : Str :=
  ((s.dropWhile isPySpace).reverse.dropWhile isPySpace).reverse

/-- Python str.split(sep) for a one-character separator; "".split(sep) is [""]. -/
def splitOnChar (sep : Char) : Str → List Str
  | [] => [[]]
  | c :: rest =>
    match splitOnChar sep rest with
    | [] => [[]]
    | h :: t => if c == sep then [] :: h :: t else (c :: h) :: t

/-- Python str.startswith. -/
def startsWith : Str → Str → Bool
  | [], _ => true
  | _ :: _, [] => false
  | p :: ps, c :: cs => p == c && startsWith ps cs

/-- Python substring membership (needle in hay). -/
def isSubstr (needle : Str) : Str → Bool
  | [] => needle.isEmpty
  | c :: rest => startsWith needle (c :: rest) || isSubstr needle rest

/-- Worker for replaceAll; the fuel is the length of the subject string,
which suffices because each step consumes at least one character. -/
def replaceAllFuel (pat : Str) : Nat → Str → Str
  | 0, s => s
  | _ + 1, [] => []
  | fuel + 1, c :: rest =>
    if !pat.isEmpty && startsWith pat (c :: rest) then
      replaceAllFuel pat fuel (List.drop pat.length (c :: rest))
    else
      c :: replaceAllFuel pat fuel rest

/-- Python str.replace(pat, "") : delete every non-overlapping leftmost
occurrence of pat. -/
def replaceAll (pat s : Str) : Str := replaceAllFuel pat s.length s

/-- Python `x or d` for an optional string x: d when x is None or empty. -/
def pyOrStr (o : Option Str) (d : Str) : Str :=
  match o with
  | none => d
  | some s => if s.isEmpty then d else s

/-- Accumulate the decimal digits of a Python int literal body, allowing a
single underscore strictly between digits (as int() does). -/
def pyIntDigitsAux : Nat → Str → Option Nat
  | acc, [] => some acc
  | acc, c :: rest =>
    if c.isDigit then pyIntDigitsAux (10 * acc + (c.toNat - 48)) rest
    else if c == '_' then
      match rest with
      | d :: _ => if d.isDigit then pyIntDigitsAux acc rest else none
      | [] => none
    else none

/-- Digit-sequence part of Python int(): nonempty, starts with a digit. -/
def pyIntDigits : Str → Option Nat
  | [] => none
  | c :: rest => if c.isDigit then pyIntDigitsAux (c.toNat - 48) rest else none

/-- Python int(s): optional surrounding whitespace, optional sign, decimal
digits; None models a ValueError. -/
def pyInt (s : Str) : Option Int :=
  match strip s with
  | [] => none
  | c :: rest =>
    if c == '-' then (pyIntDigits rest).map fun n => -(n : Int)
    else if c == '+' then (pyIntDigits rest).map fun n => (n : Int)
    else (pyIntDigits (c :: rest)).map fun n => (n : Int)

/-- Calendar date, as produced by datetime.strptime(%Y-%m-%d).date(). -/
structure Date where
  year : Nat
  month : Nat
  day : Nat
deriving DecidableEq, Repr

/-- Gregorian leap year. -/
def isLeap (y : Nat) : Bool :=
  y % 4 == 0 && (y % 100 != 0 || y % 400 == 0)

/-- Days in a month of a given year. -/
def daysInMonth (y m : Nat) : Nat :=
  if m == 2 then (if isLeap y then 29 else 28)
  else if m == 4 || m == 6 || m == 9 || m == 11 then 30
  else 31

/-- Days in all years strictly before year y (y ≥ 1). -/
def daysBeforeYear (y : Nat) : Nat :=
  365 * (y - 1) + ((y - 1) / 4 + (y - 1) / 400) - (y - 1) / 100

/-- Days in the months of year y strictly before month m. -/
def daysBeforeMonth (y m : Nat) : Nat :=
  ((List.range (m - 1)).map fun i => daysInMonth y (i + 1)).sum

/-- Proleptic Gregorian ordinal, as in Python date.toordinal (0001-01-01 is 1). -/
def toOrdinal (d : Date) : Nat :=
  daysBeforeYear d.year + daysBeforeMonth d.year d.month + d.day

/-- (a - b).days for two dates. -/
def daysBetween (a b : Date) : Int :=
  (toOrdinal a : Int) - (toOrdinal b : Int)

/-- All characters are ASCII decimal digits. -/
def allDigits (s : Str) : Bool := s.all Char.isDigit

/-- Numeric value of an ASCII digit string. -/
def strToNat (s : Str) : Nat := s.foldl (fun a c => 10 * a + (c.toNat - 48)) 0

/-- datetime.strptime(s, %Y-%m-%d): exactly four year digits, one or two
month digits in 1..12, one or two day digits valid for the month; anything
else raises ValueError (None here). -/
def parseDate (s : Str) : Option Date :=
  match splitOnChar '-' s with
  | [ys, ms, ds] =>
    if ys.length == 4 && allDigits ys
        && (ms.length == 1 || ms.length == 2) && allDigits ms
        && (ds.length == 1 || ds.length == 2) && allDigits ds then
      let y := strToNat ys
      let m := strToNat ms
      let d := strToNat ds
      if 1 ≤ y && 1 ≤ m && m ≤ 12 && 1 ≤ d && d ≤ daysInMonth y m then
        some ⟨y, m, d⟩
      else none
    else none
  | _ => none

/-- Config.TIER_1_COMPANIES. -/
def TIER_1_COMPANIES : List Str :=
  [lit "Google", lit "Meta", lit "OpenAI", lit "Microsoft",
   lit "Apple", lit "Amazon", lit "Netflix"]

/-- Config.ELIGIBLE_LOCATIONS. -/
def ELIGIBLE_LOCATIONS : List Str :=
  [lit "US", lit "Canada", lit "UK", lit "Germany", lit "India"]

/-- Config.MAX_HOURLY_RATE. -/
def MAX_HOURLY_RATE : ℚ := 100

/-- Config.MIN_AVAILABILITY_HOURS. -/
def MIN_AVAILABILITY_HOURS : Int := 20

/-- Config.MIN_EXPERIENCE_YEARS. -/
def MIN_EXPERIENCE_YEARS : ℚ := 4

/-- models.PersonalDetails. -/
structure PersonalDetails where
  full_name : Str
  email : Str
  location : Str
  linkedin : Option Str
deriving DecidableEq, Repr

/-- models.WorkExperience. -/
structure WorkExperience where
  company : Str
  title : Str
  start_date : Str
  end_date : Option Str
  technologies : Option Str
deriving DecidableEq, Repr

/-- models.SalaryPreferences.  preferred_rate and minimum_rate are float
fields, availability_hours an int field. -/
structure SalaryPreferences where
  preferred_rate : ℚ
  minimum_rate : ℚ
  currency : Str
  availability_hours : Int
deriving DecidableEq, Repr

/-- models.CompressedApplication, the Canonical Document. -/
structure CompressedApplication where
  personal : PersonalDetails
  experience : List WorkExperience
  salary : SalaryPreferences
deriving DecidableEq, Repr

/-- models.LLMEvaluation. -/
structure LLMEvaluation where
  summary : Str
  score : Int
  issues : List Str
  follow_ups : List Str
deriving DecidableEq, Repr

/-- models.ShortlistCriteria.  The score_reason rationale string is not
modelled; no claim concerns its contents. -/
structure ShortlistCriteria where
  experience_qualified : Bool
  compensation_qualified : Bool
  location_qualified : Bool
  total_years_experience : ℚ
  tier_1_experience : Bool
deriving DecidableEq, Repr

/-- Python exception kinds that the modelled code can raise. -/
inductive PyErr where
  | valueError
  | attributeError
  | validationError
  | typeError
  | exceptionError
deriving DecidableEq, Repr

/-- JSON values, the content of the stored Compressed JSON field. -/
inductive Json where
  | null
  | str (s : Str)
  | num (q : ℚ)
  | bool (b : Bool)
  | arr (items : List Json)
  | obj (fields : List (Str × Json))

/-- Lookup in a JSON object; later duplicate keys win, as when Python
builds a dict from parsed JSON. -/
def jsonGet (fields : List (Str × Json)) (key : Str) : Option Json :=
  fields.foldl (fun acc kv => if kv.1 == key then some kv.2 else acc) none

/-- pydantic required str field. -/
def validateReqStr (o : Option Json) : Except PyErr Str :=
  match o with
  | some (Json.str s) => Except.ok s
  | _ => Except.error PyErr.validationError

/-- pydantic Optional[str] field with default None. -/
def validateOptStr (o : Option Json) : Except PyErr (Option Str) :=
  match o with
  | none => Except.ok none
  | some Json.null => Except.ok none
  | some (Json.str s) => Except.ok (some s)
  | some _ => Except.error PyErr.validationError

/-- pydantic required float field (numeric JSON input). -/
def validateFloat (o : Option Json) : Except PyErr ℚ :=
  match o with
  | some (Json.num q) => Except.ok q
  | _ => Except.error PyErr.validationError

/-- pydantic required int field (numeric JSON input with integral value). -/
def validateInt (o : Option Json) : Except PyErr Int :=
  match o with
  | some (Json.num q) => if q.den == 1 then Except.ok q.num else Except.error PyErr.validationError
  | _ => Except.error PyErr.validationError

/-- Validation of the PersonalDetails sub-model. -/
def validatePersonal (j : Json) : Except PyErr PersonalDetails :=
  match j with
  | Json.obj fs => do
    let fn ← validateReqStr (jsonGet fs (lit "full_name"))
    let em ← validateReqStr (jsonGet fs (lit "email"))
    let lo ← validateReqStr (jsonGet fs (lit "location"))
    let li ← validateOptStr (jsonGet fs (lit "linkedin"))
    Except.ok { full_name := fn, email := em, location := lo, linkedin := li }
  | _ => Except.error PyErr.validationError

/-- Validation of one WorkExperience entry. -/
def validateWorkExperience (j : Json) : Except PyErr WorkExperience :=
  match j with
  | Json.obj fs => do
    let co ← validateReqStr (jsonGet fs (lit "company"))
    let ti ← validateReqStr (jsonGet fs (lit "title"))
    let sd ← validateReqStr (jsonGet fs (lit "start_date"))
    let ed ← validateOptStr (jsonGet fs (lit "end_date"))
    let te ← validateOptStr (jsonGet fs (lit "technologies"))
    Except.ok { company := co, title := ti, start_date := sd, end_date := ed, technologies := te }
  | _ => Except.error PyErr.validationError

/-- Validation of each element of the experience list in order. -/
def validateExpList : List Json → Except PyErr (List WorkExperience)
  | [] => Except.ok []
  | j :: rest => do
    let e ← validateWorkExperience j
    let es ← validateExpList rest
    Except.ok (e :: es)

/-- pydantic List[WorkExperience] field: the value must be a sequence. -/
def validateExperienceField (o : Option Json) : Except PyErr (List WorkExperience) :=
  match o with
  | some (Json.arr items) => validateExpList items
  | _ => Except.error PyErr.validationError

/-- Validation of the SalaryPreferences sub-model. -/
def validateSalary (j : Json) : Except PyErr SalaryPreferences :=
  match j with
  | Json.obj fs => do
    let pr ← validateFloat (jsonGet fs (lit "preferred_rate"))
    let mr ← validateFloat (jsonGet fs (lit "minimum_rate"))
    let cu ← validateReqStr (jsonGet fs (lit "currency"))
    let av ← validateInt (jsonGet fs (lit "availability_hours"))
    Except.ok { preferred_rate := pr, minimum_rate := mr, currency := cu, availability_hours := av }
  | _ => Except.error PyErr.validationError

/-- Required personal sub-object. -/
def validatePersonalField (o : Option Json) : Except PyErr PersonalDetails :=
  match o with
  | some j => validatePersonal j
  | none => Except.error PyErr.validationError

/-- Required salary sub-object. -/
def validateSalaryField (o : Option Json) : Except PyErr SalaryPreferences :=
  match o with
  | some j => validateSalary j
  | none => Except.error PyErr.validationError

/-- CompressedApplication(**data): data must be a mapping (else TypeError),
with the three sub-models validated; extra keys are ignored. -/
def validateCompressedApplication (j : Json) : Except PyErr CompressedApplication :=
  match j with
  | Json.obj fs => do
    let p ← validatePersonalField (jsonGet fs (lit "personal"))
    let ex ← validateExperienceField (jsonGet fs (lit "experience"))
    let sa ← validateSalaryField (jsonGet fs (lit "salary"))
    Except.ok { personal := p, experience := ex, salary := sa }
  | _ => Except.error PyErr.typeError

/-- dict() serialization of an optional string field: None becomes null. -/
def optStrToJson (o : Option Str) : Json :=
  match o with
  | none => Json.null
  | some s => Json.str s

/-- dict() serialization of PersonalDetails. -/
def personalToJson (p : PersonalDetails) : Json :=
  Json.obj [(lit "full_name", Json.str p.full_name),
            (lit "email", Json.str p.email),
            (lit "location", Json.str p.location),
            (lit "linkedin", optStrToJson p.linkedin)]

/-- dict() serialization of a WorkExperience entry. -/
def expToJson (e : WorkExperience) : Json :=
  Json.obj [(lit "company", Json.str e.company),
            (lit "title", Json.str e.title),
            (lit "start_date", Json.str e.start_date),
            (lit "end_date", optStrToJson e.end_date),
            (lit "technologies", optStrToJson e.technologies)]

/-- dict() serialization of SalaryPreferences. -/
def salaryToJson (s : SalaryPreferences) : Json :=
  Json.obj [(lit "preferred_rate", Json.num s.preferred_rate),
            (lit "minimum_rate", Json.num s.minimum_rate),
            (lit "currency", Json.str s.currency),
            (lit "availability_hours", Json.num (s.availability_hours : ℚ))]

/-- json.dumps(compressed_app.dict()) content, kept as a JSON value. -/
def appToJson (a : CompressedApplication) : Json :=
  Json.obj [(lit "personal", personalToJson a.personal),
            (lit "experience", Json.arr (a.experience.map expToJson)),
            (lit "salary", salaryToJson a.salary)]

/-- The Applicants-table record for one applicant: its Compressed JSON
field (None when the field is empty or missing). -/
structure ApplicantRow where
  compressedJson : Option Json

/-- A Personal Details row: fields Full Name, Email, Location, LinkedIn. -/
structure PersonalRow where
  full_name : Str
  email : Str
  location : Str
  linkedin : Str
deriving DecidableEq, Repr

/-- A Work Experience row: fields Company, Title, Start, End, Technologies. -/
structure ExpRow where
  company : Str
  title : Str
  start : Str
  end_ : Str
  technologies : Str
deriving DecidableEq, Repr

/-- A Salary Preferences row: Preferred Rate, Minimum Rate, Currency,
Availability (hrs/wk). -/
structure SalaryRow where
  preferred_rate : ℚ
  minimum_rate : ℚ
  currency : Str
  availability : Int
deriving DecidableEq, Repr

/-- The record store restricted to a single applicant: the applicant
record plus the three linked source tables. -/
structure Store where
  applicant : Option ApplicantRow
  personal : Option PersonalRow
  experience : List ExpRow
  salary : Option SalaryRow

/-- Personal Details row written by the Decompressor (LinkedIn defaults to
the empty string via Python or). -/
def personalRowOf (p : PersonalDetails) : PersonalRow :=
  ⟨p.full_name, p.email, p.location, pyOrStr p.linkedin []⟩

/-- Work Experience row written by the Decompressor. -/
def expRowOf (e : WorkExperience) : ExpRow :=
  ⟨e.company, e.title, e.start_date, pyOrStr e.end_date [], pyOrStr e.technologies []⟩

/-- Salary Preferences row written by the Decompressor. -/
def salaryRowOf (s : SalaryPreferences) : SalaryRow :=
  ⟨s.preferred_rate, s.minimum_rate, s.currency, s.availability_hours⟩

/-- Body of decompress_applicant_data before its catch-all handler: fetch
the applicant record and its stored document (ValueError when absent),
validate, then upsert the three tables.  Upserting work experience deletes
all prior rows and recreates them in document order. -/
def decompress_body (s : Store) : Except PyErr Store :=
  match s.applicant with
  | none => Except.error PyErr.valueError
  | some arec =>
    match arec.compressedJson with
    | none => Except.error PyErr.valueError
    | some j =>
      match validateCompressedApplication j with
      | Except.error e => Except.error e
      | Except.ok app =>
        Except.ok { s with
          personal := some (personalRowOf app.personal),
          experience := app.experience.map expRowOf,
          salary := some (salaryRowOf app.salary) }

/-- decompress_applicant_data: the catch-all except block logs and
returns False, so no exception escapes. -/
def decompress_applicant_data (s : Store) : Except PyErr (Bool × Store) :=
  match decompress_body s with
  | Except.ok s1 => Except.ok (true, s1)
  | Except.error _ => Except.ok (false, s)

/-- Body of compress_applicant_data: ValueError when Personal Details or
Salary Preferences is missing; assemble and validate the document (always
well-typed here since the rows are typed); write it to the Applicant
record, raising a plain Exception when that record does not exist. -/
def compress_body (s : Store) : Except PyErr (CompressedApplication × Store) :=
  match s.personal, s.salary with
  | some prow, some srow =>
    let app : CompressedApplication :=
      { personal := { full_name := prow.full_name, email := prow.email,
                      location := prow.location, linkedin := some prow.linkedin },
        experience := s.experience.map fun r =>
          { company := r.company, title := r.title, start_date := r.start,
            end_date := some r.end_, technologies := some r.technologies },
        salary := { preferred_rate := srow.preferred_rate, minimum_rate := srow.minimum_rate,
                    currency := srow.currency, availability_hours := srow.availability } }
    match s.applicant with
    | some _ => Except.ok (app, { s with applicant := some { compressedJson := some (appToJson app) } })
    | none => Except.error PyErr.exceptionError
  | _, _ => Except.error PyErr.valueError

/-- compress_applicant_data: its except block prints the diagnostic and
then RE-RAISES, so every body error propagates to the caller. -/
def compress_applicant_data (s : Store) : Except PyErr (CompressedApplication × Store) :=
  compress_body s

/-- Tier-1 test inside the experience loop: any configured company name,
lowercased, occurring as a substring of the lowercased employer name. -/
def tier1Hit (company : Str) : Bool :=
  TIER_1_COMPANIES.any fun t => isSubstr (lower t) company

/-- calculate_experience_years as called by evaluate_applicant: the data
really is a list of pydantic WorkExperience objects, and the first
statement of the loop body is exp.get, a method pydantic models do not
have, so the first iteration raises AttributeError.  (The body also reads
keys named start and end, which do not even exist on the model, whose
fields are start_date and end_date.)  Only an empty list completes. -/
def calculate_experience_years : List WorkExperience → Except PyErr (ℚ × Bool)
  | [] => Except.ok (0, false)
  | _ :: _ => Except.error PyErr.attributeError

/-- A Python dict with string keys and values. -/
abbrev PyDict := List (Str × Str)

/-- dict.get(key, default). -/
def dictGet (d : PyDict) (key default_ : Str) : Str :=
  match d.find? fun kv => kv.1 == key with
  | some kv => kv.2
  | none => default_

/-- Worker loop of calculate_experience_years on the dict-shaped input its
List[Dict] annotation declares: record tier-1 hits; parse the start date,
skipping the entry on failure; use today when end is absent or the literal
"present" (case-insensitively), otherwise parse it, skipping the entry on
failure; add (end - start).days / 365.25 to the running total. -/
def calcExpYearsDictGo (today : Date) : List PyDict → ℚ → Bool → ℚ × Bool
  | [], total, tier => (total, tier)
  | exp :: rest, total, tier =>
    let company := lower (dictGet exp (lit "company") [])
    let startStr := dictGet exp (lit "start") []
    let endStr := dictGet exp (lit "end") []
    let tier2 := tier || tier1Hit company
    match parseDate startStr with
    | none => calcExpYearsDictGo today rest total tier2
    | some st =>
      let endDate := if !endStr.isEmpty && lower endStr != lit "present"
                     then parseDate endStr else some today
      match endDate with
      | none => calcExpYearsDictGo today rest total tier2
      | some en => calcExpYearsDictGo today rest (total + (daysBetween en st : ℚ) * 4 / 1461) tier2

/-- calculate_experience_years on the dict input its annotation declares:
this is the computation lines 16-42 of shortlist_automation.py perform
when given dicts with keys company, start, end (1 year = 365.25 days). -/
def calculate_experience_years_on_dicts (today : Date) (data : List PyDict) : ℚ × Bool :=
  calcExpYearsDictGo today data 0 false

/-- Experience sub-criterion: total years at least MIN_EXPERIENCE_YEARS, or
tier-1 experience. -/
def experienceQualifiedOf (totalYears : ℚ) (tier1 : Bool) : Bool :=
  decide (totalYears ≥ MIN_EXPERIENCE_YEARS) || tier1

/-- Fixed conversion table of evaluate_applicant, with 1.0 for unknown
currency codes. -/
def conversionRate (currency : Str) : ℚ :=
  if currency == lit "EUR" then 11 / 10
  else if currency == lit "GBP" then 13 / 10
  else if currency == lit "CAD" then 3 / 4
  else if currency == lit "INR" then 12 / 1000
  else 1

/-- USD rate computed by evaluate_applicant: the uppercased currency is
converted through the table unless it is already USD. -/
def usdRate (sal : SalaryPreferences) : ℚ :=
  let currency := upper sal.currency
  if currency != lit "USD" then sal.preferred_rate * conversionRate currency
  else sal.preferred_rate

/-- Compensation sub-criterion: USD rate at most MAX_HOURLY_RATE and
availability at least MIN_AVAILABILITY_HOURS. -/
def compensationQualified (sal : SalaryPreferences) : Bool :=
  decide (usdRate sal ≤ MAX_HOURLY_RATE) && decide (sal.availability_hours ≥ MIN_AVAILABILITY_HOURS)

/-- Location sub-criterion: the uppercased location contains some
uppercased eligible-location token as a substring. -/
def locationQualified (location : Str) : Bool :=
  ELIGIBLE_LOCATIONS.any fun e => isSubstr (upper e) (upper location)

/-- The all-false criteria produced by the catch-all handler of
evaluate_applicant. -/
def errorCriteria : ShortlistCriteria :=
  { experience_qualified := false, compensation_qualified := false,
    location_qualified := false, total_years_experience := 0, tier_1_experience := false }

/-- Body of evaluate_applicant before its catch-all handler: fetch the
record and document (ValueError when absent), validate, run the experience
calculation (which raises on any non-empty experience list), then the
compensation and location sub-criteria. -/
def evaluate_body (today : Date) (s : Store) : Except PyErr ShortlistCriteria :=
  match s.applicant with
  | none => Except.error PyErr.valueError
  | some arec =>
    match arec.compressedJson with
    | none => Except.error PyErr.valueError
    | some j => do
      let app ← validateCompressedApplication j
      let ty ← calculate_experience_years app.experience
      let _ := today
      Except.ok
        { experience_qualified := experienceQualifiedOf ty.1 ty.2,
          compensation_qualified := compensationQualified app.salary,
          location_qualified := locationQualified app.personal.location,
          total_years_experience := ty.1,
          tier_1_experience := ty.2 }

/-- evaluate_applicant: the catch-all handler converts every exception to
the all-false error criteria, so the function never raises. -/
def evaluate_applicant (today : Date) (s : Store) : Except PyErr ShortlistCriteria :=
  match evaluate_body today s with
  | Except.ok c => Except.ok c
  | Except.error _ => Except.ok errorCriteria

/-- Accumulated state of the parse_llm_response loop. -/
structure ParseState where
  summary : Str
  score : Int
  issues : List Str
  follow_ups : List Str

/-- One item of the Follow-Ups list comprehension: kept when the stripped
text is nonempty, with leading bullets then whitespace stripped. -/
def followItem (f : Str) : Option Str :=
  if (strip f).isEmpty then none
  else some (strip ((strip f).dropWhile fun c => c == '•'))

/-- One iteration of the parse_llm_response line loop. -/
def parseLine (st : ParseState) (rawLine : Str) : ParseState :=
  let line := strip rawLine
  if startsWith (lit "Summary:") line then
    { st with summary := strip (replaceAll (lit "Summary:") line) }
  else if startsWith (lit "Score:") line then
    { st with score :=
        match pyInt (strip (replaceAll (lit "Score:") line)) with
        | some n => n
        | none => 5 }
  else if startsWith (lit "Issues:") line then
    let issuesText := strip (replaceAll (lit "Issues:") line)
    if lower issuesText != lit "none" then
      { st with issues := (splitOnChar ',' issuesText).map strip }
    else st
  else if startsWith (lit "Follow-Ups:") line then
    let fText := strip (replaceAll (lit "Follow-Ups:") line)
    if !fText.isEmpty then
      { st with follow_ups := (splitOnChar '\n' fText).filterMap followItem }
    else st
  else st

/-- The fixed fallback evaluation returned by the except handler of
parse_llm_response. -/
def fallbackEvaluation : LLMEvaluation :=
  { summary := lit "Error parsing LLM response", score := 5,
    issues := [lit "LLM response parsing failed"],
    follow_ups := [lit "Please manually review this applicant"] }

/-- parse_llm_response: split the stripped reply on newlines, fold the
label-prefixed line parser over them, then construct the pydantic
LLMEvaluation.  Its ge=1/le=10 constraint on score raises ValidationError
for an out-of-range value, which the except handler turns into the
fallback evaluation; an empty summary defaults via Python or. -/
def parse_llm_response (response : Str) : LLMEvaluation :=
  let st := (splitOnChar '\n' (strip response)).foldl parseLine
    { summary := [], score := 5, issues := [], follow_ups := [] }
  if 1 ≤ st.score ∧ st.score ≤ 10 then
    { summary := if st.summary.isEmpty then lit "No summary provided" else st.summary,
      score := st.score, issues := st.issues, follow_ups := st.follow_ups }
  else fallbackEvaluation

/-- Default value of the max_retries parameter. -/
def maxRetriesDefault : Nat := 3

/-- The for-loop of evaluate_applicant_with_retry over the attempt indices
still to run.  The oracle gives each remote call outcome: a reply string,
or None for a raised exception.  On success the reply is stripped, parsed
and returned; on failure the loop sleeps 2 ^ attempt seconds and retries
unless this was the final attempt, in which case it returns None.  The
performed sleeps are returned alongside the result.  Falling off the loop
(max_retries = 0) also returns None. -/
def retryGo (oracle : Nat → Option Str) (maxRetries : Nat) :
    List Nat → List Nat → Option LLMEvaluation × List Nat
  | [], sleeps => (none, sleeps)
  | attempt :: restAttempts, sleeps =>
    match oracle attempt with
    | some reply => (some (parse_llm_response (strip reply)), sleeps)
    | none =>
      if attempt < maxRetries - 1 then
        retryGo oracle maxRetries restAttempts (sleeps ++ [2 ^ attempt])
      else (none, sleeps)

/-- The retry loop run over attempts 0, 1, ..., maxRetries - 1. -/
def retryLoop (oracle : Nat → Option Str) (maxRetries : Nat) :
    Option LLMEvaluation × List Nat :=
  retryGo oracle maxRetries (List.range maxRetries) []

/-- evaluate_applicant_with_retry: None (with a log line) when the
applicant record or its stored document is missing, otherwise the bounded
retry loop around the remote model call. -/
def evaluate_applicant_with_retry (s : Store) (oracle : Nat → Option Str)
    (maxRetries : Nat) : Option LLMEvaluation × List Nat :=
  match s.applicant with
  | none => (none, [])
  | some arec =>
    match arec.compressedJson with
    | none => (none, [])
    | some _ => retryLoop oracle maxRetries

/-- Compose the Decompressor and then the Compressor on the same store,
returning the document the Compressor assembles. -/
def roundtrip (s : Store) : Except PyErr CompressedApplication :=
  match decompress_applicant_data s with
  | Except.ok (_, s1) =>
    match compress_applicant_data s1 with
    | Except.ok (app, _) => Except.ok app
    | Except.error e => Except.error e
  | Except.error e => Except.error e

/-- Optional-field normalization performed by the round trip on one
experience entry: absent end_date and technologies come back as the empty
string. -/
def normalizeExp (e : WorkExperience) : WorkExperience :=
  { e with end_date := some (pyOrStr e.end_date []),
           technologies := some (pyOrStr e.technologies []) }

/-- Optional-field normalization performed by the round trip on a whole
document. -/
def normalizeApp (a : CompressedApplication) : CompressedApplication :=
  { a with personal := { a.personal with linkedin := some (pyOrStr a.personal.linkedin []) },
           experience := a.experience.map normalizeExp }

/-- A store holding just one applicant record carrying document a. -/
def storeOf (a : CompressedApplication) : Store :=
  ⟨some ⟨some (appToJson a)⟩, none, [], none⟩

/-- Fixed evaluation day for the concrete theorems. -/
def today1 : Date := ⟨2026, 10, 12⟩

/-- Four exact years at a non-tier-1 employer (1461 days / 365.25 = 4). -/
def acmeExp : WorkExperience :=
  ⟨lit "Acme Corp", lit "Engineer", lit "2020-01-01", some (lit "2024-01-01"), none⟩

/-- Valid document with exactly four years of experience, compliant salary
and eligible location. -/
def D1 : CompressedApplication :=
  ⟨⟨lit "Jane Doe", lit "jane@example.com", lit "US", some (lit "linkedin.example/jane")⟩,
   [acmeExp], ⟨50, 40, lit "USD", 40⟩⟩

/-- Store holding D1. -/
def storeC1 : Store := storeOf D1

/-- The dict form of the acmeExp entry, with the keys the experience loop
reads. -/
def acmeDict : PyDict :=
  [(lit "company", lit "Acme Corp"), (lit "start", lit "2020-01-01"),
   (lit "end", lit "2024-01-01")]

/-- Dict entry naming a tier-1 employer with unparseable dates. -/
def googleDict : PyDict :=
  [(lit "company", lit "Google Inc"), (lit "start", lit ""), (lit "end", lit "")]


/-- Valid document whose optional linkedin, end_date and technologies are
all absent. -/
def D2 : CompressedApplication :=
  ⟨⟨lit "Ann Lee", lit "ann@example.com", lit "UK", none⟩,
   [⟨lit "X Ltd", lit "Dev", lit "2019-05-01", none, none⟩],
   ⟨10, 5, lit "GBP", 30⟩⟩

/-- Store holding D2. -/
def storeC2 : Store := storeOf D2

/-- What the round trip turns D2 into: every absent optional field comes
back as the empty string. -/
def D2roundtripped : CompressedApplication :=
  ⟨⟨lit "Ann Lee", lit "ann@example.com", lit "UK", some []⟩,
   [⟨lit "X Ltd", lit "Dev", lit "2019-05-01", some [], some []⟩],
   ⟨10, 5, lit "GBP", 30⟩⟩

/-- Valid document with every optional field present. -/
def DW : CompressedApplication :=
  ⟨⟨lit "Bo Li", lit "bo@example.com", lit "India", some (lit "lnk.example/bo")⟩,
   [⟨lit "Zed", lit "QA", lit "2021-03-04", some (lit "2022-03-04"), some (lit "python")⟩],
   ⟨20, 10, lit "USD", 25⟩⟩

/-- Store holding DW. -/
def storeW : Store := storeOf DW

/-- JSON document that is shape-correct but violates every value
constraint the specification asserts: empty name, email and location,
negative rates and negative availability. -/
def badValuesJson : Json :=
  Json.obj
    [(lit "personal", Json.obj
        [(lit "full_name", Json.str []), (lit "email", Json.str []),
         (lit "location", Json.str []), (lit "linkedin", Json.null)]),
     (lit "experience", Json.arr []),
     (lit "salary", Json.obj
        [(lit "preferred_rate", Json.num (-50)), (lit "minimum_rate", Json.num (-1)),
         (lit "currency", Json.str (lit "USD")), (lit "availability_hours", Json.num (-10))])]

/-- The document badValuesJson validates to. -/
def badValuesApp : CompressedApplication :=
  ⟨⟨[], [], [], none⟩, [], ⟨-50, -1, lit "USD", -10⟩⟩

/-- JSON document whose experience field is not a sequence. -/
def badShapeJson : Json :=
  Json.obj
    [(lit "personal", Json.obj
        [(lit "full_name", Json.str (lit "A")), (lit "email", Json.str (lit "a@b.c")),
         (lit "location", Json.str (lit "US")), (lit "linkedin", Json.null)]),
     (lit "experience", Json.str (lit "oops")),
     (lit "salary", Json.obj
        [(lit "preferred_rate", Json.num 10), (lit "minimum_rate", Json.num 5),
         (lit "currency", Json.str (lit "USD")), (lit "availability_hours", Json.num 20)])]

/-- JSON document missing the required salary key. -/
def missingSalaryJson : Json :=
  Json.obj
    [(lit "personal", Json.obj
        [(lit "full_name", Json.str (lit "A")), (lit "email", Json.str (lit "a@b.c")),
         (lit "location", Json.str (lit "US")), (lit "linkedin", Json.null)]),
     (lit "experience", Json.arr [])]

/-- Salary of 90 EUR at 25 hours per week. -/
def salEUR : SalaryPreferences := ⟨90, 40, lit "EUR", 25⟩

/-- Salary of 95 in an unknown currency at 25 hours per week. -/
def salXYZ : SalaryPreferences := ⟨95, 40, lit "XYZ", 25⟩

/-- Valid document whose salary passes the compensation thresholds and
whose experience list is non-empty. -/
def D4 : CompressedApplication :=
  ⟨⟨lit "John Roe", lit "john@example.com", lit "Germany", some (lit "x")⟩,
   [acmeExp], ⟨50, 40, lit "USD", 40⟩⟩

/-- Store holding D4. -/
def storeC4 : Store := storeOf D4

/-- Valid document located in Australia with non-empty experience. -/
def D10 : CompressedApplication :=
  ⟨⟨lit "Kim Park", lit "kim@example.com", lit "Australia", some (lit "k")⟩,
   [acmeExp], ⟨50, 40, lit "USD", 40⟩⟩

/-- Store holding D10. -/
def storeC10 : Store := storeOf D10

/-- Same applicant as D10 but with an empty experience list, so that the
evaluation reaches the compensation and location sub-criteria. -/
def D10e : CompressedApplication :=
  ⟨⟨lit "Kim Park", lit "kim@example.com", lit "Australia", some (lit "k")⟩,
   [], ⟨50, 40, lit "USD", 40⟩⟩

/-- Store holding D10e. -/
def storeC10e : Store := storeOf D10e

/-- The well-formed model reply of the specification example. -/
def goodReply : Str :=
  lit "Summary: Good candidate\nScore: 8\nIssues: None\nFollow-Ups: • Ask about visa status"

/-- The garbled model reply of the specification example. -/
def garbledReply : Str := lit "garbled text"

/-- Reply whose Score line parses numerically but is out of range. -/
def replyScore15 : Str := lit "Summary: Solid\nScore: 15"

/-- Reply whose Score line is non-numeric. -/
def replyScoreWord : Str := lit "Score: eight"

/-- Reply with Follow-Ups content on the label line and on a further line. -/
def multiBulletReply : Str :=
  lit "Follow-Ups: • Ask about visa status\n• Verify degree dates"

/-- Model-call oracle on which every attempt raises. -/
def failAlways : Nat → Option Str := fun _ => none

/-- Store whose applicant record carries a stored document. -/
def storeC8 : Store := ⟨some ⟨some (Json.str (lit "doc"))⟩, none, [], none⟩

/-- Store with no applicant record at all. -/
def storeNoApp : Store := ⟨none, none, [], none⟩

/-- Store whose applicant record exists but whose linked tables and stored
document are all empty. -/
def storeMissingLinked : Store := ⟨some ⟨none⟩, none, [], none⟩

theorem validatePersonal_toJson (p : PersonalDetails) :
    validatePersonal (personalToJson p) = Except.ok p := by
  rcases p with ⟨fn, em, lo, li⟩
  cases li <;> rfl

theorem validateWorkExperience_toJson (e : WorkExperience) :
    validateWorkExperience (expToJson e) = Except.ok e := by
  rcases e with ⟨co, ti, sd, ed, te⟩
  cases ed <;> cases te <;> rfl

theorem validateExpList_toJson (l : List WorkExperience) :
    validateExpList (l.map expToJson) = Except.ok l := by
  induction l with
  | nil => rfl
  | cons e t ih =>
    simp only [List.map_cons, validateExpList, validateWorkExperience_toJson, ih]
    rfl

theorem validateSalary_toJson (s : SalaryPreferences) :
    validateSalary (salaryToJson s) = Except.ok s := by
  rcases s with ⟨pr, mr, cu, av⟩
  rfl

theorem validate_appToJson (a : CompressedApplication) :
    validateCompressedApplication (appToJson a) = Except.ok a := by
  rcases a with ⟨p, l, s⟩
  have h : validateCompressedApplication (appToJson ⟨p, l, s⟩) =
      (do
        let p2 ← validatePersonal (personalToJson p)
        let ex ← validateExpList (l.map expToJson)
        let sa ← validateSalary (salaryToJson s)
        Except.ok { personal := p2, experience := ex, salary := sa }) := rfl
  rw [h]
  simp only [validatePersonal_toJson, validateExpList_toJson, validateSalary_toJson]
  rfl

theorem retryGo_allFail (oracle : Nat → Option Str) (mr : Nat) (h : ∀ i, oracle i = none) :
    ∀ (k a : Nat) (sleeps : List Nat), a + k = mr →
      retryGo oracle mr (List.range' a k) sleeps
        = (none, sleeps ++ (List.range' a (k - 1)).map fun i => 2 ^ i) := by
  intro k
  induction k with
  | zero =>
    intro a sleeps _
    simp [retryGo]
  | succ n ih =>
    intro a sleeps hsum
    rw [List.range'_succ]
    simp only [retryGo, h a]
    by_cases hlt : a < mr - 1
    · rw [if_pos hlt]
      cases n with
      | zero => omega
      | succ m =>
        rw [ih (a + 1) (sleeps ++ [2 ^ a]) (by omega)]
        have hr : List.range' a (m + 1 + 1 - 1) = a :: List.range' (a + 1) m := by
          simpa using List.range'_succ a m 1
        rw [hr]
        simp
    · rw [if_neg hlt]
      have hn : n = 0 := by omega
      subst hn
      simp

theorem retryLoop_allFail (oracle : Nat → Option Str) (mr : Nat) (h : ∀ i, oracle i = none) :
    retryLoop oracle mr = (none, (List.range (mr - 1)).map fun i => 2 ^ i) := by
  have hgo := retryGo_allFail oracle mr h mr 0 [] (by omega)
  simpa [retryLoop, List.range_eq_range'] using hgo

/-- C1: the experience sub-criterion is specified as the sum of
(end - start) in years with end defaulting to today, malformed pairs
skipped, and qualification iff totalYears ≥ 4 or a tier-1 employer
substring match; exactly 4.0 years qualifies and a 0-year applicant at
"Google Inc" qualifies.  The dict-level computation of
calculate_experience_years (its declared List[Dict] input) does behave
that way, as the last four conjuncts show, but evaluate_applicant feeds it
pydantic WorkExperience objects, on which exp.get raises AttributeError,
so every applicant with a non-empty experience list — including the
four-year applicant D1 — is reported with the all-false error criteria. -/
theorem c1_experience_years_evaluation :
    evaluate_applicant today1 storeC1 = Except.ok errorCriteria ∧
    calculate_experience_years D1.experience = Except.error PyErr.attributeError ∧
    calculate_experience_years_on_dicts today1 [acmeDict] = (4, false) ∧
    experienceQualifiedOf 4 false = true ∧
    calculate_experience_years_on_dicts today1 [googleDict] = (0, true) ∧
    experienceQualifiedOf 0 true = true := by
  refine ⟨rfl, rfl, ?_, by decide, rfl, by decide⟩
  have h : calculate_experience_years_on_dicts today1 [acmeDict]
      = ((0 : ℚ) + ((1461 : Int) : ℚ) * 4 / 1461, false) := rfl
  rw [h]
  norm_num

/-- C2: the claim that decompress-then-compress reproduces every valid
document field-for-field fails: on D2, whose optional linkedin, end_date
and technologies are absent, the round trip returns them as empty strings
instead of absent, so the result differs from D2. -/
theorem c2_roundtrip_counterexample :
    roundtrip storeC2 = Except.ok D2roundtripped ∧ D2roundtripped ≠ D2 :=
  ⟨rfl, by decide⟩

/-- C2 (amended): for every valid document D stored on the applicant
record, decompressing and then compressing yields exactly D with each
absent optional field (linkedin, end_date, technologies) replaced by the
empty string; all other fields, and the order of the experience list, are
preserved.  Documents whose optional fields are all present round-trip to
themselves. -/
theorem c2_roundtrip_normalizes (D : CompressedApplication) (s : Store)
    (h : s.applicant = some ⟨some (appToJson D)⟩) :
    roundtrip s = Except.ok (normalizeApp D) := by
  have hd : decompress_body s = Except.ok
      { s with personal := some (personalRowOf D.personal),
               experience := D.experience.map expRowOf,
               salary := some (salaryRowOf D.salary) } := by
    simp [decompress_body, h, validate_appToJson]
  simp [roundtrip, decompress_applicant_data, hd, compress_applicant_data,
    compress_body, h, normalizeApp, normalizeExp, personalRowOf, expRowOf,
    salaryRowOf, List.map_map, Function.comp]

/-- C2 (witness): the amended round-trip theorem applied to the concrete
document DW in store storeW. -/
theorem c2_roundtrip_witness : roundtrip storeW = Except.ok (normalizeApp DW) :=
  c2_roundtrip_normalizes DW storeW rfl

/-- C3: the claim that schema validation rejects empty personal strings
and negative rate/availability values is false: badValuesJson, whose
full_name, email and location are empty and whose rates and availability
are negative, is accepted by the validation used by the Compressor,
Decompressor and Shortlist Evaluator. -/
theorem c3_value_constraints_counterexample :
    validateCompressedApplication badValuesJson = Except.ok badValuesApp ∧
    badValuesApp.personal.full_name = [] ∧
    badValuesApp.salary.preferred_rate < 0 ∧
    badValuesApp.salary.availability_hours < 0 :=
  ⟨rfl, rfl, by decide, by decide⟩

/-- C3 (amended): validation enforces presence and types only — the
document must be an object with well-typed personal, experience (a
possibly empty sequence of well-typed entries) and salary sub-structures,
and a type or shape mismatch or missing required field fails with
ValidationError — but it does not enforce non-negativity of the numeric
fields or non-emptiness of the personal strings, as the accepted
badValuesJson shows. -/
theorem c3_schema_shape_only :
    validateCompressedApplication badValuesJson = Except.ok badValuesApp ∧
    validateCompressedApplication badShapeJson = Except.error PyErr.validationError ∧
    validateCompressedApplication missingSalaryJson = Except.error PyErr.validationError :=
  ⟨rfl, rfl, rfl⟩

/-- C4: the compensation formula itself matches the claim — 90 EUR
converts to exactly 99 USD and qualifies, 95 in the unknown currency XYZ
passes through as 95 and qualifies, and D4 (50 USD at 40 h/wk) satisfies
the sub-criterion — but the full evaluation of the valid document D4
returns compensation_qualified = false, because the experience step
raises AttributeError first and the handler returns the all-false
criteria. -/
theorem c4_compensation_criterion :
    evaluate_applicant today1 storeC4 = Except.ok errorCriteria ∧
    compensationQualified D4.salary = true ∧
    usdRate salEUR = 99 ∧ compensationQualified salEUR = true ∧
    usdRate salXYZ = 95 ∧ compensationQualified salXYZ = true := by
  have hEUR : usdRate salEUR = (90 : ℚ) * (11 / 10) := rfl
  have hXYZ : usdRate salXYZ = (95 : ℚ) * 1 := rfl
  have h99 : usdRate salEUR = 99 := by rw [hEUR]; norm_num
  have h95 : usdRate salXYZ = 95 := by rw [hXYZ]; norm_num
  refine ⟨rfl, by decide, h99, ?_, h95, ?_⟩
  · unfold compensationQualified
    rw [h99]
    decide
  · unfold compensationQualified
    rw [h95]
    decide

/-- C5: the claim that the score is CLAMPED to [1,10] fails: on a reply
whose Score line reads 15, clamping would give 10, but the pydantic range
check raises and the handler substitutes the whole fallback evaluation,
whose score is 5. -/
theorem c5_clamp_counterexample :
    parse_llm_response replyScore15 = fallbackEvaluation ∧
    (parse_llm_response replyScore15).score = 5 ∧
    (5 : Int) ≠ min (max (15 : Int) 1) 10 :=
  ⟨by decide, by decide, by decide⟩

/-- C5 (amended): every parsed evaluation carries a score within [1,10];
a non-numeric Score line defaults to 5, and an out-of-range numeric score
is not clamped to the boundary but replaced by the fallback evaluation
(score 5). -/
theorem c5_score_range_default :
    (∀ r : Str, 1 ≤ (parse_llm_response r).score ∧ (parse_llm_response r).score ≤ 10) ∧
    (parse_llm_response replyScoreWord).score = 5 ∧
    parse_llm_response replyScore15 = fallbackEvaluation := by
  refine ⟨?_, by decide, by decide⟩
  intro r
  by_cases h : 1 ≤ (List.foldl parseLine
        { summary := [], score := 5, issues := [], follow_ups := [] }
        (splitOnChar '\n' (strip r))).score ∧
      (List.foldl parseLine
        { summary := [], score := 5, issues := [], follow_ups := [] }
        (splitOnChar '\n' (strip r))).score ≤ 10
  · simp [parse_llm_response, h]
  · simp [parse_llm_response, h, fallbackEvaluation]

/-- C6: the claim that the reply "garbled text" yields the fixed fallback
evaluation with one issue and one follow-up fails: no exception occurs on
that input, so the parser returns the defaults — summary "No summary
provided", score 5, and EMPTY issue and follow-up lists. -/
theorem c6_garbled_counterexample :
    parse_llm_response garbledReply
      = { summary := lit "No summary provided", score := 5, issues := [], follow_ups := [] } ∧
    parse_llm_response garbledReply ≠ fallbackEvaluation ∧
    (parse_llm_response garbledReply).issues.length = 0 ∧
    (parse_llm_response garbledReply).follow_ups.length = 0 :=
  ⟨by decide, by decide, by decide, by decide⟩

/-- C6 (amended): the well-formed example reply parses to score 8, empty
issues (the Issues text equals "none" case-insensitively) and the single
follow-up "Ask about visa status"; the reply "garbled text" parses to the
default-filled evaluation with summary "No summary provided", score 5 and
empty issue and follow-up lists (not the fallback evaluation). -/
theorem c6_parse_examples :
    parse_llm_response goodReply
      = { summary := lit "Good candidate", score := 8, issues := [],
          follow_ups := [lit "Ask about visa status"] } ∧
    parse_llm_response garbledReply
      = { summary := lit "No summary provided", score := 5, issues := [], follow_ups := [] } :=
  ⟨by decide, by decide⟩

/-- C7: the specified behaviour — Follow-Ups content on the label line
AND on subsequent lines all returned, split by newline with bullets
stripped — does not hold: the reply is split into lines before the
Follow-Ups branch runs, so the branch only ever sees the label line and
the later bullet line is dropped; on multiBulletReply the parser returns
exactly one follow-up instead of two. -/
theorem c7_followups_multiline :
    (parse_llm_response multiBulletReply).follow_ups = [lit "Ask about visa status"] ∧
    (parse_llm_response multiBulletReply).follow_ups.length = 1 :=
  ⟨by decide, by decide⟩

/-- C8: the claim that the backoff sleeps are 1s, 2s and 4s fails: with
the default three attempts all failing, the loop sleeps only between
consecutive attempts, so the recorded sleeps are [1, 2] — there is no 4s
sleep — and the call returns None. -/
theorem c8_backoff_counterexample :
    evaluate_applicant_with_retry storeC8 failAlways 3 = (none, [1, 2]) ∧
    ([1, 2] : List Nat) ≠ [1, 2, 4] :=
  ⟨rfl, by decide⟩

/-- C8 (amended): on persistent call failure the loop makes maxRetries
attempts, sleeping 2^attempt seconds after each failed attempt except the
last (so 1s then 2s for the default 3), with no jitter, and returns None
after exhausting the attempts. -/
theorem c8_backoff_amended (s : Store) (arec : ApplicantRow) (j : Json)
    (oracle : Nat → Option Str) (mr : Nat)
    (hs : s.applicant = some arec) (hj : arec.compressedJson = some j)
    (h : ∀ i, oracle i = none) :
    evaluate_applicant_with_retry s oracle mr
      = (none, (List.range (mr - 1)).map fun i => 2 ^ i) := by
  simp only [evaluate_applicant_with_retry, hs, hj]
  exact retryLoop_allFail oracle mr h

/-- C8 (witness): the amended backoff theorem applied to storeC8, the
always-failing oracle and the default three attempts. -/
theorem c8_backoff_witness :
    evaluate_applicant_with_retry storeC8 failAlways 3
      = (none, (List.range 2).map fun i => 2 ^ i) :=
  c8_backoff_amended storeC8 ⟨some (Json.str (lit "doc"))⟩ (Json.str (lit "doc"))
    failAlways 3 rfl rfl (fun _ => rfl)

/-- C9: the claim that every public per-applicant operation returns a
boolean/absent/default result rather than raising fails for the
Compressor: on an applicant with no Personal Details and no Salary
Preferences rows, compress_applicant_data logs and RE-RAISES the
ValueError, while decompress_applicant_data on the same store swallows
its error and returns False. -/
theorem c9_compress_raises_counterexample :
    compress_applicant_data storeMissingLinked = Except.error PyErr.valueError ∧
    decompress_applicant_data storeMissingLinked = Except.ok (false, storeMissingLinked) :=
  ⟨rfl, rfl⟩

/-- C9 (amended): the Decompressor always returns a boolean, the
Shortlist Evaluator always returns a criteria record, and the LLM
evaluator returns None on a missing record — none of them raise — but the
Compressor propagates its errors (its except block re-raises), as on the
missing-data store. -/
theorem c9_error_policy :
    (∀ s : Store, ∃ b s1, decompress_applicant_data s = Except.ok (b, s1)) ∧
    (∀ (today : Date) (s : Store), ∃ c, evaluate_applicant today s = Except.ok c) ∧
    evaluate_applicant_with_retry storeNoApp failAlways maxRetriesDefault = (none, []) ∧
    compress_applicant_data storeMissingLinked = Except.error PyErr.valueError := by
  refine ⟨?_, ?_, rfl, rfl⟩
  · intro s
    cases hb : decompress_body s with
    | ok s1 => exact ⟨true, s1, by simp [decompress_applicant_data, hb]⟩
    | error e => exact ⟨false, s, by simp [decompress_applicant_data, hb]⟩
  · intro today s
    cases hb : evaluate_body today s with
    | ok c => exact ⟨c, by simp [evaluate_applicant, hb]⟩
    | error e => exact ⟨errorCriteria, by simp [evaluate_applicant, hb]⟩

/-- C10: the location sub-criterion is an uppercased substring test
against the configured tokens, and since US is a token, the locations
Australia and Russia both satisfy it — the evaluation of the valid
empty-experience document D10e indeed reports location_qualified = true
for Australia — but for the equally valid D10, which differs only by a
non-empty experience list, the evaluation aborts with AttributeError in
the experience step and reports location_qualified = false. -/
theorem c10_location_substring :
    evaluate_applicant today1 storeC10 = Except.ok errorCriteria ∧
    locationQualified (lit "Australia") = true ∧
    locationQualified (lit "Russia") = true ∧
    evaluate_applicant today1 storeC10e = Except.ok
      { experience_qualified := false, compensation_qualified := true,
        location_qualified := true, total_years_experience := 0,
        tier_1_experience := false } := by
  refine ⟨rfl, by decide, by decide, rfl⟩
